import Mathlib

/-
Verification development for the wallet/ledger service.

The embedding below is a shallow model of the WalletService
(src/unnamed/part_005), the persisted schema (src/unnamed/part_006) and the
webhook controller (src/src/modules/wallet/wallet.controller.ts).

Modelling conventions:
  - JavaScript numbers (balances and amounts, stored as DOUBLE PRECISION) are
    modelled as rationals.  None of the claims settled here depends on binary
    floating point rounding; they depend on which unit the arithmetic uses and
    on control flow, which rationals represent faithfully.
  - The database is a pair of lists (wallets, transactions); the unique
    indexes of the schema are expressed as hypotheses where a proof needs
    them.  Lookups by unique key are List.find? translations of findUnique.
  - Every operation returns (Except Err result, DB).  A thrown exception or
    an aborted $transaction leaves the database untouched, so error paths
    return the input database unchanged; the createMany unique-reference
    violation aborts the enclosing $transaction, so it is modelled as an
    error returned before the wallet writes of the same atomic unit.
  - External collaborators are parameters: the HMAC and the sha256-based
    key hash are abstract String functions (node crypto), Date.now is a Nat
    parameter, Math.random driven wallet-number generation is a candidate
    function Nat -> String, and the Paystack gateway answers are explicit
    result values.
-/

attribute [local semireducible] Rat.add Rat.sub Rat.mul Rat.inv

/-- Wallet row (part_006 lines 2-11): userId, walletNumber and balance are
the fields the service reads and writes; balance is stored in major units. -/
structure Wallet where
  userId : String
  walletNumber : String
  balance : ℚ
deriving DecidableEq, Repr

/-- Transaction row (part_006 lines 14-29), with the fields the service
touches.  metadata is the JSONB object, modelled as a key-value list. -/
structure Txn where
  userId : String
  reference : String
  amount : ℚ
  type : String
  status : String
  paystackReference : Option String
  gatewayResponse : Option String
  metadata : List (String × String)
  completedAt : Option Nat
deriving DecidableEq, Repr

/-- The persisted state: the Wallet table and the Transaction table. -/
structure DB where
  wallets : List Wallet
  transactions : List Txn
deriving DecidableEq, Repr

/-- Errors raised by the service: BadRequestException and NotFoundException
(part_005), plus the unique-constraint violation the createMany of transfer
would raise on a duplicate reference. -/
inductive Err where
  | badRequest (msg : String)
  | notFound (msg : String)
  | duplicateReference
deriving DecidableEq, Repr

instance {ε α : Type} [DecidableEq ε] [DecidableEq α] : DecidableEq (Except ε α) := fun x y =>
  match x, y with
  | .ok a, .ok b =>
    if h : a = b then .isTrue (by rw [h]) else .isFalse (fun hh => by cases hh; exact h rfl)
  | .error a, .error b =>
    if h : a = b then .isTrue (by rw [h]) else .isFalse (fun hh => by cases hh; exact h rfl)
  | .ok _, .error _ => .isFalse (fun hh => by cases hh)
  | .error _, .ok _ => .isFalse (fun hh => by cases hh)

/-- findUnique on the Wallet table by the unique userId key. -/
def findWalletByUserId (db : DB) (userId : String) : Option Wallet :=
  db.wallets.find? (fun w => w.userId == userId)

/-- findUnique on the Wallet table by the unique walletNumber key. -/
def findWalletByNumber (db : DB) (walletNumber : String) : Option Wallet :=
  db.wallets.find? (fun w => w.walletNumber == walletNumber)

/-- findUnique on the Transaction table by the unique reference key. -/
def findTxnByReference (db : DB) (reference : String) : Option Txn :=
  db.transactions.find? (fun t => t.reference == reference)

/-- wallet.update keyed on userId, touching only the balance column. -/
def setBalanceByUserId (l : List Wallet) (userId : String) (f : ℚ → ℚ) : List Wallet :=
  l.map (fun w => if w.userId == userId then { w with balance := f w.balance } else w)

/-- wallet.update keyed on walletNumber, touching only the balance column. -/
def setBalanceByNumber (l : List Wallet) (walletNumber : String) (f : ℚ → ℚ) : List Wallet :=
  l.map (fun w => if w.walletNumber == walletNumber then { w with balance := f w.balance } else w)

/-- transaction.update keyed on the unique reference. -/
def setTxnByReference (l : List Txn) (reference : String) (f : Txn → Txn) : List Txn :=
  l.map (fun t => if t.reference == reference then f t else t)

/-- lookup of one key of the JSONB metadata object. -/
def metaLookup (m : List (String × String)) (k : String) : Option String :=
  (m.find? (fun p => p.fst == k)).map (fun p => p.snd)

/-- filter of the dedup query of transfer (part_005 lines 413-421): a row
whose metadata carries the idempotency key and whose status is success. -/
def isDupTxn (key : String) (t : Txn) : Bool :=
  metaLookup t.metadata "idempotency_key" == some key && t.status == "success"

/-- reference already present in the Transaction table (the unique index
Transaction_reference_key of part_006 line 41). -/
def refTaken (db : DB) (r : String) : Bool :=
  db.transactions.any (fun t => t.reference == r)

/-- wallet.upsert keyed on userId used by the two credit paths (part_005
lines 142-153 and 215-226): increment the balance when the wallet exists,
otherwise create a row whose balance is the credited amount.  The create
branch of the source supplies no walletNumber, modelled as the empty
string. -/
def upsertWalletCredit (db : DB) (userId : String) (amt : ℚ) : DB :=
  match findWalletByUserId db userId with
  | some _ => { db with wallets := setBalanceByUserId db.wallets userId (fun b => b + amt) }
  | none => { db with wallets := db.wallets ++ [⟨userId, "", amt⟩] }

/-- startsWith of the event name (part_005 line 101), written over the
character lists so that it evaluates inside the kernel. -/
def strStartsWith (s p : String) : Bool :=
  List.isPrefixOf p.data s.data

/-- conversion sent to the gateway (part_005 line 41): amount must be in
kobo, the smallest currency unit. -/
def amountInKobo (amount : ℚ) : ℚ :=
  amount * 100

/-- conversion applied to gateway amounts before crediting (part_005
lines 140 and 188): convert from kobo to naira. -/
def koboToNaira (amount : ℚ) : ℚ :=
  amount / 100

/-- input of the idempotency hash (part_005 line 407). -/
def transferData (fromUserId toWalletNumber : String) (amount : ℚ) : String :=
  fromUserId ++ "_" ++ toWalletNumber ++ "_" ++ toString amount

/-- idempotency key of transfer (part_005 line 408); hash16 stands for the
truncated sha256 hex digest of node crypto. -/
def idempotencyKeyOf (hash16 : String → String) (fromUserId toWalletNumber : String)
    (amount : ℚ) : String :=
  "idf_" ++ hash16 (transferData fromUserId toWalletNumber amount)

/-- transfer reference scheme (part_005 lines 464-465). -/
def transferReference (timestamp : Nat) (userId : String) : String :=
  "txf_" ++ toString timestamp ++ "_" ++ userId

/-- deposit reference scheme (part_005 line 38). -/
def depositReference (timestamp : Nat) (userId : String) : String :=
  "dep_" ++ toString timestamp ++ "_" ++ userId

/-- result of the Paystack initialize-transaction call, as read by
initiateDeposit: ok carries data.access_code, data.reference and
data.authorization_url; fail is any thrown gateway error. -/
inductive GatewayInit where
  | ok (accessCode : String) (reference : String) (authorizationUrl : String)
  | fail
deriving DecidableEq, Repr

/-- result of the Paystack verify-transaction call, as read by
verifyDepositWithPaystack: ok carries data.status, data.amount (kobo) and
data.gateway_response; notFound is an HTTP 404 error response; otherError is
any other thrown error. -/
inductive GatewayVerifyResult where
  | ok (status : String) (amount : ℚ) (gatewayResponse : Option String)
  | notFound
  | otherError
deriving DecidableEq, Repr

/-- nonnegativity of the gateway amount, per constructor. -/
def GatewayVerifyResult.amountNonneg : GatewayVerifyResult → Prop
  | .ok _ amount _ => 0 ≤ amount
  | .notFound => True
  | .otherError => True

/-- caller-visible result of initiateDeposit. -/
structure DepositResult where
  reference : String
  authorizationUrl : String
deriving DecidableEq, Repr

/-- result object of handleWebhook. -/
structure WebhookResult where
  ok : Bool
  message : Option String
deriving DecidableEq, Repr

/-- result object of verifyDepositWithPaystack. -/
structure VerifyResult where
  reference : String
  status : String
  amount : ℚ
  paystackStatus : Option String
  message : String
deriving DecidableEq, Repr

/-- result object of transfer. -/
structure TransferResult where
  status : String
  message : String
  reference : String
deriving DecidableEq, Repr

/-- payload fields the webhook controller extracts from the parsed raw body. -/
structure WebhookPayload where
  event : String
  reference : String
  amount : ℚ
  status : String
  gateway_response : String
deriving DecidableEq, Repr

/-- getOrCreateWallet (part_005 lines 315-357): return the wallet of the
user, creating it with balance 0 when absent.  The wallet number comes from
a bounded retry loop (cap 5) over generated candidates; cand i is the
candidate generated at attempt i.  Exhausting all five attempts raises the
allocation failure. -/
def getOrCreateWallet (cand : Nat → String) (userId : String) (db : DB) :
    Except Err Wallet × DB :=
  match findWalletByUserId db userId with
  | some wallet => (.ok wallet, db)
  | none =>
    match (List.range 5).find? (fun i => (findWalletByNumber db (cand i)).isNone) with
    | none => (.error (.badRequest "Failed to generate unique wallet number"), db)
    | some i =>
      let w : Wallet := ⟨userId, cand i, 0⟩
      (.ok w, { db with wallets := db.wallets ++ [w] })

/-- initiateDeposit (part_005 lines 33-84): ensure the wallet exists, build
the reference, call the gateway with the amount converted to kobo, and only
on gateway success create the pending Transaction row carrying the gateway
access code.  gwInit is the gateway response as a function of the kobo
amount sent. -/
def initiateDeposit (gwInit : ℚ → GatewayInit) (cand : Nat → String) (now : Nat)
    (userId : String) (amount : ℚ) (db : DB) : Except Err DepositResult × DB :=
  match getOrCreateWallet cand userId db with
  | (.error e, db1) => (.error e, db1)
  | (.ok _, db1) =>
    let reference := depositReference now userId
    match gwInit (amountInKobo amount) with
    | .fail => (.error (.badRequest "Failed to initialize payment"), db1)
    | .ok accessCode gwReference authorizationUrl =>
      let row : Txn :=
        { userId := userId, reference := reference, amount := amount,
          type := "deposit", status := "pending", paystackReference := some accessCode,
          gatewayResponse := none, metadata := [], completedAt := none }
      (.ok ⟨gwReference, authorizationUrl⟩,
       { db1 with transactions := db1.transactions ++ [row] })

/-- verifyPaystackSignature (part_005 lines 89-96): recompute the keyed hash
of the payload with the shared secret and compare with the signature; hmac
stands for the HMAC-SHA-512 hex digest of node crypto. -/
def verifyPaystackSignature (hmac : String → String → String) (secret : String)
    (payload signature : String) : Bool :=
  hmac secret payload == signature

/-- handleWebhook (part_005 lines 99-160): ignore non charge events, require
the transaction to exist, short-circuit terminal transactions, then inside
one atomic unit settle the status and credit the wallet (converted from
kobo) only when the payment succeeded. -/
def handleWebhook (event reference : String) (amount : ℚ)
    (status gateway_response : String) (now : Nat) (db : DB) :
    Except Err WebhookResult × DB :=
  if strStartsWith event "charge." then
    match findTxnByReference db reference with
    | none => (.error (.notFound "Transaction not found"), db)
    | some txn =>
      if txn.status == "success" || txn.status == "failed" then
        (.ok ⟨true, some "Already processed"⟩, db)
      else
        let isPaymentSuccessful := event == "charge.success" && status == "success"
        let upd : Txn → Txn := fun t =>
          { t with
            status := if isPaymentSuccessful then "success" else "failed",
            gatewayResponse := some gateway_response,
            completedAt := some now }
        let db1 := { db with transactions := setTxnByReference db.transactions reference upd }
        let db2 := if isPaymentSuccessful
          then upsertWalletCredit db1 txn.userId (koboToNaira amount)
          else db1
        (.ok ⟨true, none⟩, db2)
  else (.ok ⟨true, some "Event ignored"⟩, db)

/-- paystackWebhook of the controller (wallet.controller.ts lines 63-91):
reject a missing signature header, verify the signature over the raw body,
reject a mismatch, then parse the raw body and delegate to handleWebhook.
parse stands for JSON.parse plus field extraction; none models a parse
failure, which throws. -/
def paystackWebhook (hmac : String → String → String) (secret : String)
    (signature : Option String) (rawBody : String)
    (parse : String → Option WebhookPayload) (now : Nat) (db : DB) :
    Except Err WebhookResult × DB :=
  match signature with
  | none => (.error (.badRequest "No signature header"), db)
  | some sig =>
    if verifyPaystackSignature hmac secret rawBody sig then
      match parse rawBody with
      | none => (.error (.badRequest "Invalid webhook payload"), db)
      | some p => handleWebhook p.event p.reference p.amount p.status p.gateway_response now db
    else (.error (.badRequest "Invalid signature"), db)

/-- verifyDepositWithPaystack (part_005 lines 165-283): require the
transaction to exist, call the gateway; on a gateway answer, short-circuit
a transaction already marked success, settle to success with a wallet
credit when the gateway says success, otherwise mark failed; on a gateway
404 mark failed as abandoned; on any other gateway error change nothing and
report a transient outcome. -/
def verifyDepositWithPaystack (reference : String) (gw : GatewayVerifyResult)
    (now : Nat) (db : DB) : Except Err VerifyResult × DB :=
  match findTxnByReference db reference with
  | none => (.error (.notFound "Transaction not found"), db)
  | some txn =>
    match gw with
    | .ok paystackStatus paystackKobo gwResp =>
      let paystackAmount := koboToNaira paystackKobo
      if txn.status == "success" then
        (.ok ⟨txn.reference, txn.status, txn.amount, some paystackStatus,
              "Transaction already processed"⟩, db)
      else if paystackStatus == "success" then
        let upd : Txn → Txn := fun t =>
          { t with status := "success", gatewayResponse := gwResp, completedAt := some now }
        let db1 := { db with transactions := setTxnByReference db.transactions reference upd }
        let db2 := upsertWalletCredit db1 txn.userId paystackAmount
        (.ok ⟨txn.reference, "success", paystackAmount, some paystackStatus,
              "Payment verified and wallet credited"⟩, db2)
      else
        let upd : Txn → Txn := fun t =>
          { t with status := "failed",
                   gatewayResponse := some (gwResp.getD "Payment not completed"),
                   completedAt := some now }
        let db1 := { db with transactions := setTxnByReference db.transactions reference upd }
        (.ok ⟨txn.reference, "failed", txn.amount, some paystackStatus,
              "Payment failed"⟩, db1)
    | .notFound =>
      let upd : Txn → Txn := fun t =>
        { t with status := "failed",
                 gatewayResponse := some "Transaction abandoned or not completed",
                 completedAt := some now }
      let db1 := { db with transactions := setTxnByReference db.transactions reference upd }
      (.ok ⟨reference, "failed", txn.amount, none, "Payment was abandoned"⟩, db1)
    | .otherError =>
      (.ok ⟨reference, "pending", txn.amount, none,
            "Unable to verify payment status. Please try again."⟩, db)

/-- transfer (part_005 lines 383-515): validate the amount, resolve the
recipient by wallet number and the sender by user id, check the sender
balance, then inside one atomic unit run the dedup query, re-read the
sender balance, debit the sender, credit the recipient and append the two
Transaction rows sharing one idempotency key.  The unique-reference
constraint of createMany aborts the whole atomic unit, modelled as the
duplicateReference error checked against the rows about to be inserted. -/
def transfer (hash16 : String → String) (now : Nat)
    (fromUserId toWalletNumber : String) (amount : ℚ) (db : DB) :
    Except Err TransferResult × DB :=
  if amount ≤ 0 then (.error (.badRequest "Amount must be greater than zero"), db)
  else
    match findWalletByNumber db toWalletNumber with
    | none => (.error (.notFound "Recipient wallet not found"), db)
    | some recipientWallet =>
      match findWalletByUserId db fromUserId with
      | none => (.error (.badRequest "Insufficient balance"), db)
      | some senderWallet =>
        if senderWallet.balance < amount then
          (.error (.badRequest "Insufficient balance"), db)
        else
          let idempotencyKey := idempotencyKeyOf hash16 fromUserId toWalletNumber amount
          match db.transactions.find? (isDupTxn idempotencyKey) with
          | some existingTransfer =>
            (.ok ⟨"success", "Transfer already processed", existingTransfer.reference⟩, db)
          | none =>
            match findWalletByUserId db fromUserId with
            | none => (.error (.badRequest "Insufficient balance"), db)
            | some freshSenderWallet =>
              if freshSenderWallet.balance < amount then
                (.error (.badRequest "Insufficient balance"), db)
              else
                let senderReference := transferReference now fromUserId
                let recipientReference := transferReference now recipientWallet.userId
                if senderReference == recipientReference ||
                    refTaken db senderReference || refTaken db recipientReference then
                  (.error .duplicateReference, db)
                else
                  let rows : List Txn :=
                    [{ userId := fromUserId, reference := senderReference,
                       amount := -amount, type := "transfer_out", status := "success",
                       paystackReference := none, gatewayResponse := none,
                       metadata := [("to", toWalletNumber),
                                    ("idempotency_key", idempotencyKey)],
                       completedAt := none },
                     { userId := recipientWallet.userId, reference := recipientReference,
                       amount := amount, type := "transfer_in", status := "success",
                       paystackReference := none, gatewayResponse := none,
                       metadata := [("from", senderWallet.walletNumber),
                                    ("idempotency_key", idempotencyKey)],
                       completedAt := none }]
                  (.ok ⟨"success", "Transfer completed", senderReference⟩,
                   ⟨setBalanceByNumber
                      (setBalanceByUserId db.wallets fromUserId (fun b => b - amount))
                      toWalletNumber (fun b => b + amount),
                    db.transactions ++ rows⟩)

/-- all stored balances are nonnegative. -/
def NonNegDB (db : DB) : Prop :=
  ∀ w ∈ db.wallets, 0 ≤ w.balance

/-- the unique index on Wallet.userId (part_006 line 32). -/
def UniqueUserIds (db : DB) : Prop :=
  db.wallets.Pairwise (fun x y => x.userId ≠ y.userId)

/-- the unique index on Wallet.walletNumber (part_006 line 35). -/
def UniqueWalletNumbers (db : DB) : Prop :=
  db.wallets.Pairwise (fun x y => x.walletNumber ≠ y.walletNumber)

instance (db : DB) : Decidable (NonNegDB db) := by
  unfold NonNegDB
  exact List.decidableBAll _ _

instance (db : DB) : Decidable (UniqueUserIds db) := by
  unfold UniqueUserIds
  exact List.instDecidablePairwise _

instance (db : DB) : Decidable (UniqueWalletNumbers db) := by
  unfold UniqueWalletNumbers
  exact List.instDecidablePairwise _

/-! Helper lemmas about the store operations. -/

theorem find?_map_pres {α : Type} (g : α → α) (p : α → Bool)
    (hg : ∀ x, p (g x) = p x) (l : List α) :
    (l.map g).find? p = (l.find? p).map g := by
  induction l with
  | nil => rfl
  | cons a t ih =>
    by_cases h : p a = true
    · simp [List.find?_cons_of_pos, h, hg]
    · have h2 : p (g a) = false := by rw [hg]; exact Bool.not_eq_true _ |>.mp h
      have h3 : p a = false := Bool.not_eq_true _ |>.mp h
      simp [List.find?_cons_of_neg, h2, h3, ih]

theorem transferReference_inj {t : Nat} {a b : String}
    (h : transferReference t a = transferReference t b) : a = b := by
  unfold transferReference at h
  have hd := congrArg String.data h
  simp only [String.data_append] at hd
  exact String.ext (List.append_cancel_left hd)

/-- a wallet of the list matching the userId filter is the wallet find?
returns, as soon as userIds are pairwise distinct. -/
theorem eq_of_userId_match {l : List Wallet} {u : String} {S w : Wallet}
    (hp : l.Pairwise (fun x y => x.userId ≠ y.userId))
    (hfind : l.find? (fun x => x.userId == u) = some S)
    (hw : w ∈ l) (hwu : (w.userId == u) = true) : w = S := by
  by_contra hne
  have hSu := List.find?_some hfind
  have hSm : S ∈ l := List.mem_of_find?_eq_some hfind
  have hsymm : Symmetric (fun (x y : Wallet) => x.userId ≠ y.userId) := by
    intro x y hxy e
    exact hxy e.symm
  have hud : w.userId ≠ S.userId := List.Pairwise.forall hsymm hp hw hSm hne
  exact hud ((beq_iff_eq.mp hwu).trans (beq_iff_eq.mp hSu).symm)

/-- with pairwise distinct wallet numbers, the sender wallet of a transfer
to a different user does not carry the recipient wallet number. -/
theorem sender_number_ne {db : DB} {wNum u : String} {R S : Wallet}
    (hp : UniqueWalletNumbers db)
    (hR : findWalletByNumber db wNum = some R)
    (hS : findWalletByUserId db u = some S)
    (hneq : u ≠ R.userId) : (S.walletNumber == wNum) = false := by
  have hRn := List.find?_some hR
  have hSu := List.find?_some hS
  have hRm : R ∈ db.wallets := List.mem_of_find?_eq_some hR
  have hSm : S ∈ db.wallets := List.mem_of_find?_eq_some hS
  have hSR : S ≠ R := fun e => hneq (((beq_iff_eq.mp hSu).symm.trans (congrArg Wallet.userId e)))
  have hsymm : Symmetric (fun (x y : Wallet) => x.walletNumber ≠ y.walletNumber) := by
    intro x y hxy e
    exact hxy e.symm
  have hnd : S.walletNumber ≠ R.walletNumber := List.Pairwise.forall hsymm hp hSm hRm hSR
  exact beq_eq_false_iff_ne.mpr (fun e => hnd (e.trans (beq_iff_eq.mp hRn).symm))

theorem findWalletByUserId_setBalanceByUserId (l : List Wallet) (u u2 : String) (f : ℚ → ℚ) :
    (setBalanceByUserId l u f).find? (fun w => w.userId == u2) =
      (l.find? (fun w => w.userId == u2)).map
        (fun w => if w.userId == u then { w with balance := f w.balance } else w) := by
  apply find?_map_pres
  intro x
  by_cases h : x.userId == u <;> simp [h]

theorem findWalletByNumber_setBalanceByUserId (l : List Wallet) (u n : String) (f : ℚ → ℚ) :
    (setBalanceByUserId l u f).find? (fun w => w.walletNumber == n) =
      (l.find? (fun w => w.walletNumber == n)).map
        (fun w => if w.userId == u then { w with balance := f w.balance } else w) := by
  apply find?_map_pres
  intro x
  by_cases h : x.userId == u <;> simp [h]

theorem findWalletByUserId_setBalanceByNumber (l : List Wallet) (n u2 : String) (f : ℚ → ℚ) :
    (setBalanceByNumber l n f).find? (fun w => w.userId == u2) =
      (l.find? (fun w => w.userId == u2)).map
        (fun w => if w.walletNumber == n then { w with balance := f w.balance } else w) := by
  apply find?_map_pres
  intro x
  by_cases h : x.walletNumber == n <;> simp [h]

theorem findWalletByNumber_setBalanceByNumber (l : List Wallet) (n n2 : String) (f : ℚ → ℚ) :
    (setBalanceByNumber l n f).find? (fun w => w.walletNumber == n2) =
      (l.find? (fun w => w.walletNumber == n2)).map
        (fun w => if w.walletNumber == n then { w with balance := f w.balance } else w) := by
  apply find?_map_pres
  intro x
  by_cases h : x.walletNumber == n <;> simp [h]

theorem findTxn_setTxnByReference (l : List Txn) (r r2 : String) (f : Txn → Txn)
    (hf : ∀ t, (f t).reference = t.reference) :
    (setTxnByReference l r f).find? (fun t => t.reference == r2) =
      (l.find? (fun t => t.reference == r2)).map
        (fun t => if t.reference == r then f t else t) := by
  apply find?_map_pres
  intro x
  by_cases h : x.reference == r <;> simp [h, hf]

theorem upsertWalletCredit_transactions (db : DB) (uid : String) (amt : ℚ) :
    (upsertWalletCredit db uid amt).transactions = db.transactions := by
  unfold upsertWalletCredit
  cases findWalletByUserId db uid <;> rfl

/-! Run-level helper lemmas for transfer. -/

/-- transfer on the happy path: explicit final state.  The hypotheses are
the preconditions of a completed non-duplicate transfer: positive amount,
both wallets resolve, sufficient balance, no prior successful transaction
carrying the idempotency key, distinct sender and recipient users, and
fresh references. -/
theorem transfer_success_run
    (hash16 : String → String) (now : Nat) (u wNum : String) (a : ℚ) (db : DB)
    (R S : Wallet)
    (hpos : 0 < a)
    (hR : findWalletByNumber db wNum = some R)
    (hS : findWalletByUserId db u = some S)
    (hbal : a ≤ S.balance)
    (hkey : db.transactions.find? (isDupTxn (idempotencyKeyOf hash16 u wNum a)) = none)
    (hneq : u ≠ R.userId)
    (href1 : refTaken db (transferReference now u) = false)
    (href2 : refTaken db (transferReference now R.userId) = false) :
    transfer hash16 now u wNum a db =
      (.ok ⟨"success", "Transfer completed", transferReference now u⟩,
       ⟨setBalanceByNumber (setBalanceByUserId db.wallets u (fun b => b - a))
          wNum (fun b => b + a),
        db.transactions ++
          [{ userId := u, reference := transferReference now u, amount := -a,
             type := "transfer_out", status := "success",
             paystackReference := none, gatewayResponse := none,
             metadata := [("to", wNum),
                          ("idempotency_key", idempotencyKeyOf hash16 u wNum a)],
             completedAt := none },
           { userId := R.userId, reference := transferReference now R.userId,
             amount := a, type := "transfer_in", status := "success",
             paystackReference := none, gatewayResponse := none,
             metadata := [("from", S.walletNumber),
                          ("idempotency_key", idempotencyKeyOf hash16 u wNum a)],
             completedAt := none }]⟩) := by
  have h1 : ¬ (a ≤ 0) := not_le.mpr hpos
  have h2 : ¬ (S.balance < a) := not_lt.mpr hbal
  have h3 : (transferReference now u == transferReference now R.userId) = false :=
    beq_eq_false_iff_ne.mpr (fun h => hneq (transferReference_inj h))
  simp only [transfer, hR, hS, hkey, h1, h2, h3, href1, href2, if_false,
    Bool.false_or, Bool.or_self, ite_false, ite_true]
  simp [h1, h2]

/-- transfer with a resolved recipient but an insufficient sender balance:
the insufficiency error, with the database untouched. -/
theorem transfer_insufficient_run
    (hash16 : String → String) (now : Nat) (u wNum : String) (a : ℚ) (db : DB)
    (R S : Wallet)
    (hpos : 0 < a)
    (hR : findWalletByNumber db wNum = some R)
    (hS : findWalletByUserId db u = some S)
    (hlt : S.balance < a) :
    transfer hash16 now u wNum a db = (.error (.badRequest "Insufficient balance"), db) := by
  have h1 : ¬ (a ≤ 0) := not_le.mpr hpos
  simp [transfer, hR, hS, h1, hlt]

/-- whenever the sender balance is below the requested amount the database
comes back unchanged, whatever branch rejects the call. -/
theorem transfer_unchanged_of_low_balance
    (hash16 : String → String) (now : Nat) (u wNum : String) (a : ℚ) (db : DB)
    (S : Wallet)
    (hS : findWalletByUserId db u = some S)
    (hlt : S.balance < a) :
    (transfer hash16 now u wNum a db).2 = db := by
  by_cases h1 : a ≤ 0
  · simp [transfer, h1]
  · cases hR : findWalletByNumber db wNum with
    | none => simp [transfer, h1, hR]
    | some R => simp [transfer, h1, hR, hS, hlt]

/-- a second transfer call with identical parameters, at any later
timestamp, on the state produced by a completed first call: the database
never changes again; the call answers with the original sender reference
when the remaining balance still covers the amount, and rejects with the
insufficiency error when it does not. -/
theorem transfer_again_run
    (hash16 : String → String) (now now2 : Nat) (u wNum : String) (a : ℚ) (db : DB)
    (R S : Wallet)
    (hpos : 0 < a)
    (hR : findWalletByNumber db wNum = some R)
    (hS : findWalletByUserId db u = some S)
    (hbal : a ≤ S.balance)
    (hkey : db.transactions.find? (isDupTxn (idempotencyKeyOf hash16 u wNum a)) = none)
    (hneq : u ≠ R.userId)
    (href1 : refTaken db (transferReference now u) = false)
    (href2 : refTaken db (transferReference now R.userId) = false)
    (hUW : UniqueWalletNumbers db) :
    (transfer hash16 now2 u wNum a (transfer hash16 now u wNum a db).2).2 =
        (transfer hash16 now u wNum a db).2 ∧
    (a ≤ S.balance - a →
      (transfer hash16 now2 u wNum a (transfer hash16 now u wNum a db).2).1 =
        .ok ⟨"success", "Transfer already processed", transferReference now u⟩) ∧
    (S.balance - a < a →
      (transfer hash16 now2 u wNum a (transfer hash16 now u wNum a db).2).1 =
        .error (.badRequest "Insufficient balance")) := by
  have hrun := transfer_success_run hash16 now u wNum a db R S hpos hR hS hbal hkey hneq href1 href2
  have hRu : (R.userId == u) = false := beq_eq_false_iff_ne.mpr (fun e => hneq e.symm)
  have hSn : (S.walletNumber == wNum) = false := sender_number_ne hUW hR hS hneq
  have hSu := List.find?_some hS
  have hRn := List.find?_some hR
  have hSu2 : S.userId = u := beq_iff_eq.mp hSu
  have hRn2 : R.walletNumber = wNum := beq_iff_eq.mp hRn
  have hSn2 : ¬ (S.walletNumber = wNum) := beq_eq_false_iff_ne.mp hSn
  have hRu2 : ¬ (R.userId = u) := beq_eq_false_iff_ne.mp hRu
  -- the state after the first call
  set db1 := (transfer hash16 now u wNum a db).2 with hdb1
  have hwallets : db1.wallets =
      setBalanceByNumber (setBalanceByUserId db.wallets u (fun b => b - a))
        wNum (fun b => b + a) := by rw [hdb1, hrun]
  have htxns : db1.transactions = db.transactions ++
      [{ userId := u, reference := transferReference now u, amount := -a,
         type := "transfer_out", status := "success",
         paystackReference := none, gatewayResponse := none,
         metadata := [("to", wNum),
                      ("idempotency_key", idempotencyKeyOf hash16 u wNum a)],
         completedAt := none },
       { userId := R.userId, reference := transferReference now R.userId,
         amount := a, type := "transfer_in", status := "success",
         paystackReference := none, gatewayResponse := none,
         metadata := [("from", S.walletNumber),
                      ("idempotency_key", idempotencyKeyOf hash16 u wNum a)],
         completedAt := none }] := by rw [hdb1, hrun]
  -- lookups on the new state
  have hS1 : findWalletByUserId db1 u = some { S with balance := S.balance - a } := by
    unfold findWalletByUserId
    rw [hwallets, findWalletByUserId_setBalanceByNumber, findWalletByUserId_setBalanceByUserId]
    unfold findWalletByUserId at hS
    rw [hS]
    simp [hSu2, hSn2]
  have hR1 : findWalletByNumber db1 wNum = some { R with balance := R.balance + a } := by
    unfold findWalletByNumber
    rw [hwallets, findWalletByNumber_setBalanceByNumber, findWalletByNumber_setBalanceByUserId]
    unfold findWalletByNumber at hR
    rw [hR]
    simp [hRu2, hRn2]
  have hdup : db1.transactions.find? (isDupTxn (idempotencyKeyOf hash16 u wNum a)) =
      some { userId := u, reference := transferReference now u, amount := -a,
             type := "transfer_out", status := "success",
             paystackReference := none, gatewayResponse := none,
             metadata := [("to", wNum),
                          ("idempotency_key", idempotencyKeyOf hash16 u wNum a)],
             completedAt := none } := by
    rw [htxns]
    rw [List.find?_append, hkey]
    simp [isDupTxn, metaLookup]
  have h1 : ¬ (a ≤ 0) := not_le.mpr hpos
  refine ⟨?_, ?_, ?_⟩
  · by_cases h2 : S.balance - a < a
    · exact congrArg Prod.snd
        (transfer_insufficient_run hash16 now2 u wNum a db1 _ _ hpos hR1 hS1 h2) |>.trans rfl
    · simp only [transfer, hR1, hS1, h1, hdup, ite_false, ite_true]
      simp [h1, h2]
  · intro hsuf
    have h2 : ¬ ({ S with balance := S.balance - a }.balance < a) := not_lt.mpr hsuf
    simp only [transfer, hR1, hS1, h1, hdup, ite_false, ite_true]
    simp [h1, h2]
  · intro hlow
    have := transfer_insufficient_run hash16 now2 u wNum a db1 _ _ hpos hR1 hS1 hlow
    rw [this]

/-- sender lookup after the debit and credit updates of a transfer. -/
theorem findU_after_transfer_updates (l : List Wallet) (u wNum : String)
    (f g : ℚ → ℚ) (S : Wallet)
    (hS : l.find? (fun w => w.userId == u) = some S)
    (hSn : (S.walletNumber == wNum) = false) :
    (setBalanceByNumber (setBalanceByUserId l u f) wNum g).find? (fun w => w.userId == u) =
      some { S with balance := f S.balance } := by
  rw [findWalletByUserId_setBalanceByNumber, findWalletByUserId_setBalanceByUserId, hS]
  have hSu := List.find?_some hS
  have hSu2 : S.userId = u := beq_iff_eq.mp hSu
  have hSn2 : ¬ (S.walletNumber = wNum) := beq_eq_false_iff_ne.mp hSn
  simp [hSu2, hSn2]

/-- recipient lookup after the debit and credit updates of a transfer. -/
theorem findN_after_transfer_updates (l : List Wallet) (u wNum : String)
    (f g : ℚ → ℚ) (R : Wallet)
    (hR : l.find? (fun w => w.walletNumber == wNum) = some R)
    (hRu : (R.userId == u) = false) :
    (setBalanceByNumber (setBalanceByUserId l u f) wNum g).find?
        (fun w => w.walletNumber == wNum) =
      some { R with balance := g R.balance } := by
  rw [findWalletByNumber_setBalanceByNumber, findWalletByNumber_setBalanceByUserId, hR]
  have hRn := List.find?_some hR
  have hRn2 : R.walletNumber = wNum := beq_iff_eq.mp hRn
  have hRu2 : ¬ (R.userId = u) := beq_eq_false_iff_ne.mp hRu
  simp [hRu2, hRn2]

/-- C3: a successful non-duplicate transfer of amount a from the sender
wallet to the recipient wallet debits the sender by exactly a, credits the
recipient by exactly a, and appends exactly two Transaction rows, one
transfer_out of -a for the sender and one transfer_in of +a for the
recipient, sharing one idempotency key and summing to zero, all in the one
returned state. -/
theorem c3_transfer_conservation
    (hash16 : String → String) (now : Nat) (u wNum : String) (a : ℚ) (db : DB)
    (R S : Wallet)
    (hpos : 0 < a)
    (hR : findWalletByNumber db wNum = some R)
    (hS : findWalletByUserId db u = some S)
    (hbal : a ≤ S.balance)
    (hkey : db.transactions.find? (isDupTxn (idempotencyKeyOf hash16 u wNum a)) = none)
    (hneq : u ≠ R.userId)
    (href1 : refTaken db (transferReference now u) = false)
    (href2 : refTaken db (transferReference now R.userId) = false)
    (hUW : UniqueWalletNumbers db) :
    (transfer hash16 now u wNum a db).1 =
      .ok ⟨"success", "Transfer completed", transferReference now u⟩ ∧
    findWalletByUserId (transfer hash16 now u wNum a db).2 u =
      some { S with balance := S.balance - a } ∧
    findWalletByNumber (transfer hash16 now u wNum a db).2 wNum =
      some { R with balance := R.balance + a } ∧
    (transfer hash16 now u wNum a db).2.transactions =
      db.transactions ++
        [{ userId := u, reference := transferReference now u, amount := -a,
           type := "transfer_out", status := "success",
           paystackReference := none, gatewayResponse := none,
           metadata := [("to", wNum),
                        ("idempotency_key", idempotencyKeyOf hash16 u wNum a)],
           completedAt := none },
         { userId := R.userId, reference := transferReference now R.userId,
           amount := a, type := "transfer_in", status := "success",
           paystackReference := none, gatewayResponse := none,
           metadata := [("from", S.walletNumber),
                        ("idempotency_key", idempotencyKeyOf hash16 u wNum a)],
           completedAt := none }] ∧
    (((transfer hash16 now u wNum a db).2.transactions.drop
        db.transactions.length).map Txn.amount).sum = 0 ∧
    ∀ t ∈ (transfer hash16 now u wNum a db).2.transactions.drop db.transactions.length,
      metaLookup t.metadata "idempotency_key" = some (idempotencyKeyOf hash16 u wNum a) := by
  have hrun := transfer_success_run hash16 now u wNum a db R S hpos hR hS hbal hkey hneq href1 href2
  have hSn : (S.walletNumber == wNum) = false := sender_number_ne hUW hR hS hneq
  have hRu : (R.userId == u) = false := beq_eq_false_iff_ne.mpr (fun e => hneq e.symm)
  refine ⟨by rw [hrun], ?_, ?_, by rw [hrun], ?_, ?_⟩
  · have h2 := findU_after_transfer_updates db.wallets u wNum
      (fun b => b - a) (fun b => b + a) S hS hSn
    rw [hrun]
    simpa [findWalletByUserId] using h2
  · have h2 := findN_after_transfer_updates db.wallets u wNum
      (fun b => b - a) (fun b => b + a) R hR hRu
    rw [hrun]
    simpa [findWalletByNumber] using h2
  · rw [hrun]
    simp [List.drop_left]
  · rw [hrun]
    simp [List.drop_left, metaLookup]

/-- C9 counterexample: a transfer whose recipient wallet number is the
sender wallet itself generates the same reference for both rows, so the
createMany unique-reference violation is reached and aborts the call. -/
theorem c9_counterexample :
    transfer (fun s => s) 5 "u1" "W1" 30 ⟨[⟨"u1", "W1", 100⟩], []⟩ =
      (.error .duplicateReference, ⟨[⟨"u1", "W1", 100⟩], []⟩) := by decide

/-- C9 amended: the two references of a transfer are distinct, and the
duplicate-reference branch is not reached, whenever the sender and the
recipient are different users and neither generated reference is already
present in the Transaction table. -/
theorem c9_reference_distinctness
    (hash16 : String → String) (now : Nat) (u wNum : String) (a : ℚ) (db : DB)
    (R S : Wallet)
    (hpos : 0 < a)
    (hR : findWalletByNumber db wNum = some R)
    (hS : findWalletByUserId db u = some S)
    (hbal : a ≤ S.balance)
    (hkey : db.transactions.find? (isDupTxn (idempotencyKeyOf hash16 u wNum a)) = none)
    (hneq : u ≠ R.userId)
    (href1 : refTaken db (transferReference now u) = false)
    (href2 : refTaken db (transferReference now R.userId) = false) :
    transferReference now u ≠ transferReference now R.userId ∧
    (transfer hash16 now u wNum a db).1 ≠ .error .duplicateReference := by
  have hrun := transfer_success_run hash16 now u wNum a db R S hpos hR hS hbal hkey hneq href1 href2
  constructor
  · exact fun h => hneq (transferReference_inj h)
  · rw [hrun]
    simp

theorem c9_witness :
    ("u1" : String) ≠ "u2" ∧
    transferReference 7 "u1" ≠ transferReference 7 "u2" :=
  ⟨by decide,
   (c9_reference_distinctness (fun s => s) 7 "u1" "W2" 30
      ⟨[⟨"u1", "W1", 100⟩, ⟨"u2", "W2", 5⟩], []⟩ ⟨"u2", "W2", 5⟩ ⟨"u1", "W1", 100⟩
      (by decide) (by decide) (by decide) (by decide) (by decide) (by decide)
      (by decide) (by decide)).1⟩

theorem c3_witness :
    (0 : ℚ) < 30 ∧
    (transfer (fun s => s) 3 "u1" "W2" 30
        ⟨[⟨"u1", "W1", 100⟩, ⟨"u2", "W2", 5⟩], []⟩).1 =
      .ok ⟨"success", "Transfer completed", transferReference 3 "u1"⟩ :=
  ⟨by decide,
   (c3_transfer_conservation (fun s => s) 3 "u1" "W2" 30
      ⟨[⟨"u1", "W1", 100⟩, ⟨"u2", "W2", 5⟩], []⟩ ⟨"u2", "W2", 5⟩ ⟨"u1", "W1", 100⟩
      (by decide) (by decide) (by decide) (by decide) (by decide) (by decide)
      (by decide) (by decide) (by decide)).1⟩

/-- C4 counterexample: a sender with balance exactly equal to the amount.
The first call succeeds; the identical second call fails with the
insufficiency error instead of returning success with the original
reference, because the balance pre-check runs before the dedup lookup. -/
theorem c4_counterexample :
    (transfer (fun s => s) 1 "u1" "W2" 100
        ⟨[⟨"u1", "W1", 100⟩, ⟨"u2", "W2", 0⟩], []⟩).1 =
      .ok ⟨"success", "Transfer completed", "txf_1_u1"⟩ ∧
    (transfer (fun s => s) 2 "u1" "W2" 100
        (transfer (fun s => s) 1 "u1" "W2" 100
          ⟨[⟨"u1", "W1", 100⟩, ⟨"u2", "W2", 0⟩], []⟩).2).1 =
      .error (.badRequest "Insufficient balance") := by decide

/-- C4 amended: two identical transfer invocations produce exactly one net
balance change; when the sender balance at the second call still covers the
amount, the second call returns success carrying the first call sender
reference and changes nothing. -/
theorem c4_duplicate_short_circuit
    (hash16 : String → String) (now now2 : Nat) (u wNum : String) (a : ℚ) (db : DB)
    (R S : Wallet)
    (hpos : 0 < a)
    (hR : findWalletByNumber db wNum = some R)
    (hS : findWalletByUserId db u = some S)
    (hbal : a ≤ S.balance)
    (hkey : db.transactions.find? (isDupTxn (idempotencyKeyOf hash16 u wNum a)) = none)
    (hneq : u ≠ R.userId)
    (href1 : refTaken db (transferReference now u) = false)
    (href2 : refTaken db (transferReference now R.userId) = false)
    (hUW : UniqueWalletNumbers db)
    (hsuf : a ≤ S.balance - a) :
    (transfer hash16 now u wNum a db).1 =
      .ok ⟨"success", "Transfer completed", transferReference now u⟩ ∧
    (transfer hash16 now2 u wNum a (transfer hash16 now u wNum a db).2).1 =
      .ok ⟨"success", "Transfer already processed", transferReference now u⟩ ∧
    (transfer hash16 now2 u wNum a (transfer hash16 now u wNum a db).2).2 =
      (transfer hash16 now u wNum a db).2 := by
  have hagain := transfer_again_run hash16 now now2 u wNum a db R S hpos hR hS hbal hkey
    hneq href1 href2 hUW
  have hrun := transfer_success_run hash16 now u wNum a db R S hpos hR hS hbal hkey
    hneq href1 href2
  exact ⟨by rw [hrun], hagain.2.1 hsuf, hagain.1⟩

theorem c4_witness :
    (100 : ℚ) ≤ 300 - 100 ∧
    (transfer (fun s => s) 9 "u1" "W2" 100
        (transfer (fun s => s) 1 "u1" "W2" 100
          ⟨[⟨"u1", "W1", 300⟩, ⟨"u2", "W2", 0⟩], []⟩).2).1 =
      .ok ⟨"success", "Transfer already processed", transferReference 1 "u1"⟩ :=
  ⟨by decide,
   (c4_duplicate_short_circuit (fun s => s) 1 9 "u1" "W2" 100
      ⟨[⟨"u1", "W1", 300⟩, ⟨"u2", "W2", 0⟩], []⟩ ⟨"u2", "W2", 0⟩ ⟨"u1", "W1", 300⟩
      (by decide) (by decide) (by decide) (by decide) (by decide) (by decide)
      (by decide) (by decide) (by decide) (by decide)).2.1⟩

/-- C10 counterexample: after a successful transfer leaves the sender with
less than the amount, a later identical call at a much later timestamp
fails with the insufficiency error rather than returning the original
reference. -/
theorem c10_counterexample :
    (transfer (fun s => s) 1000 "ua" "WB" 100
        ⟨[⟨"ua", "WA", 150⟩, ⟨"ub", "WB", 0⟩], []⟩).1 =
      .ok ⟨"success", "Transfer completed", "txf_1000_ua"⟩ ∧
    (transfer (fun s => s) 999999 "ua" "WB" 100
        (transfer (fun s => s) 1000 "ua" "WB" 100
          ⟨[⟨"ua", "WA", 150⟩, ⟨"ub", "WB", 0⟩], []⟩).2).1 =
      .error (.badRequest "Insufficient balance") := by decide

/-- C10 amended: the dedup window is unbounded.  After a completed transfer
(u, wNum, a), a call with the same three parameters at any later timestamp
moves no money: the state never changes again, the call answers with the
original sender reference when the remaining balance still covers the
amount, and rejects with the insufficiency error otherwise. -/
theorem c10_unbounded_dedup
    (hash16 : String → String) (now : Nat) (u wNum : String) (a : ℚ) (db : DB)
    (R S : Wallet)
    (hpos : 0 < a)
    (hR : findWalletByNumber db wNum = some R)
    (hS : findWalletByUserId db u = some S)
    (hbal : a ≤ S.balance)
    (hkey : db.transactions.find? (isDupTxn (idempotencyKeyOf hash16 u wNum a)) = none)
    (hneq : u ≠ R.userId)
    (href1 : refTaken db (transferReference now u) = false)
    (href2 : refTaken db (transferReference now R.userId) = false)
    (hUW : UniqueWalletNumbers db) :
    ∀ now2 : Nat,
      (transfer hash16 now2 u wNum a (transfer hash16 now u wNum a db).2).2 =
        (transfer hash16 now u wNum a db).2 ∧
      (a ≤ S.balance - a →
        (transfer hash16 now2 u wNum a (transfer hash16 now u wNum a db).2).1 =
          .ok ⟨"success", "Transfer already processed", transferReference now u⟩) ∧
      (S.balance - a < a →
        (transfer hash16 now2 u wNum a (transfer hash16 now u wNum a db).2).1 =
          .error (.badRequest "Insufficient balance")) :=
  fun now2 => transfer_again_run hash16 now now2 u wNum a db R S hpos hR hS hbal hkey
    hneq href1 href2 hUW

theorem c10_witness :
    (150 : ℚ) - 100 < 100 ∧
    (transfer (fun s => s) 424242 "ua" "WB" 100
        (transfer (fun s => s) 1000 "ua" "WB" 100
          ⟨[⟨"ua", "WA", 150⟩, ⟨"ub", "WB", 0⟩], []⟩).2).1 =
      .error (.badRequest "Insufficient balance") :=
  ⟨by decide,
   ((c10_unbounded_dedup (fun s => s) 1000 "ua" "WB" 100
      ⟨[⟨"ua", "WA", 150⟩, ⟨"ub", "WB", 0⟩], []⟩ ⟨"ub", "WB", 0⟩ ⟨"ua", "WA", 150⟩
      (by decide) (by decide) (by decide) (by decide) (by decide) (by decide)
      (by decide) (by decide) (by decide)) 424242).2.2 (by decide)⟩

/-- C5: a transfer whose sender balance is below the requested amount, with
a resolved recipient, fails with the insufficiency error; both wallets and
the Transaction table are exactly as before the call. -/
theorem c5_insufficient_balance
    (hash16 : String → String) (now : Nat) (u wNum : String) (a : ℚ) (db : DB)
    (R S : Wallet)
    (hpos : 0 < a)
    (hR : findWalletByNumber db wNum = some R)
    (hS : findWalletByUserId db u = some S)
    (hlt : S.balance < a) :
    transfer hash16 now u wNum a db = (.error (.badRequest "Insufficient balance"), db) ∧
    findWalletByUserId (transfer hash16 now u wNum a db).2 u = some S ∧
    findWalletByNumber (transfer hash16 now u wNum a db).2 wNum = some R ∧
    (transfer hash16 now u wNum a db).2.transactions = db.transactions := by
  have h := transfer_insufficient_run hash16 now u wNum a db R S hpos hR hS hlt
  refine ⟨h, ?_, ?_, ?_⟩ <;> rw [h]
  · exact hS
  · exact hR

theorem c5_witness :
    (100 : ℚ) < 200 ∧
    transfer (fun s => s) 4 "u1" "W2" 200
        ⟨[⟨"u1", "W1", 100⟩, ⟨"u2", "W2", 7⟩], []⟩ =
      (.error (.badRequest "Insufficient balance"),
       ⟨[⟨"u1", "W1", 100⟩, ⟨"u2", "W2", 7⟩], []⟩) :=
  ⟨by decide,
   (c5_insufficient_balance (fun s => s) 4 "u1" "W2" 200
      ⟨[⟨"u1", "W1", 100⟩, ⟨"u2", "W2", 7⟩], []⟩ ⟨"u2", "W2", 7⟩ ⟨"u1", "W1", 100⟩
      (by decide) (by decide) (by decide) (by decide)).1⟩

/-- a settle update keyed on the reference rewrites exactly the found
transaction. -/
theorem findTxn_after_settle (l : List Txn) (r : String) (f : Txn → Txn) (txn : Txn)
    (hf : ∀ t, (f t).reference = t.reference)
    (hfind : l.find? (fun t => t.reference == r) = some txn) :
    (setTxnByReference l r f).find? (fun t => t.reference == r) = some (f txn) := by
  rw [findTxn_setTxnByReference _ _ _ _ hf, hfind]
  have h := List.find?_some hfind
  have h2 : txn.reference = r := beq_iff_eq.mp h
  simp [h2]

/-- C1 counterexample: a transaction already terminal with status failed is
moved to success, and the wallet credited, by a gateway verification poll
that reports success; the terminal state is not preserved. -/
theorem c1_counterexample :
    (verifyDepositWithPaystack "dep_1_u1" (.ok "success" 700 (some "ok")) 3
        ⟨[⟨"u1", "W1", 0⟩],
         [{ userId := "u1", reference := "dep_1_u1", amount := 7, type := "deposit",
            status := "failed", paystackReference := none, gatewayResponse := none,
            metadata := [], completedAt := none }]⟩).2 =
      ⟨[⟨"u1", "W1", 7⟩],
       [{ userId := "u1", reference := "dep_1_u1", amount := 7, type := "deposit",
          status := "success", paystackReference := none, gatewayResponse := some "ok",
          metadata := [], completedAt := some 3 }]⟩ := by decide

/-- C1 amended: handleWebhook never modifies a terminal transaction and
answers already processed; verifyDepositWithPaystack treats only success as
terminal on its answered path: an already-success transaction is reported
already processed with no state change when the gateway answers, while a
pending transaction settles to success or failed exactly as the event
dictates.  (A failed transaction, by contrast, can be re-settled by the
poll, and a gateway 404 re-marks even a success row as failed.) -/
theorem c1_terminal_transitions
    (event ref st gr pst : String) (amt pamt : ℚ) (pgr : Option String)
    (now : Nat) (db : DB) (txn : Txn)
    (hfind : findTxnByReference db ref = some txn)
    (hev : strStartsWith event "charge." = true) :
    ((txn.status = "success" ∨ txn.status = "failed") →
      handleWebhook event ref amt st gr now db = (.ok ⟨true, some "Already processed"⟩, db)) ∧
    (txn.status = "success" →
      verifyDepositWithPaystack ref (.ok pst pamt pgr) now db =
        (.ok ⟨txn.reference, txn.status, txn.amount, some pst,
              "Transaction already processed"⟩, db)) ∧
    (txn.status = "pending" →
      (handleWebhook event ref amt st gr now db).1 = .ok ⟨true, none⟩ ∧
      findTxnByReference (handleWebhook event ref amt st gr now db).2 ref =
        some { txn with
          status := if event == "charge.success" && st == "success"
            then "success" else "failed",
          gatewayResponse := some gr, completedAt := some now }) := by
  refine ⟨?_, ?_, ?_⟩
  · rintro (h | h) <;> simp [handleWebhook, hev, hfind, h]
  · intro h
    simp [verifyDepositWithPaystack, hfind, h]
  · intro h
    have hterm : (txn.status == "success" || txn.status == "failed") = false := by
      rw [h]
      decide
    have hsettle :
        (setTxnByReference db.transactions ref
            (fun t => { t with
              status := if event == "charge.success" && st == "success"
                then "success" else "failed",
              gatewayResponse := some gr, completedAt := some now })).find?
            (fun t => t.reference == ref) =
          some { txn with
            status := if event == "charge.success" && st == "success"
              then "success" else "failed",
            gatewayResponse := some gr, completedAt := some now } := by
      unfold findTxnByReference at hfind
      exact findTxn_after_settle db.transactions ref _ txn (fun t => rfl) hfind
    by_cases hps : (event == "charge.success" && st == "success") = true
    · constructor
      · simp [handleWebhook, hev, hfind, hterm, hps]
      · have htr : (handleWebhook event ref amt st gr now db).2.transactions =
            setTxnByReference db.transactions ref
              (fun t => { t with
                status := if event == "charge.success" && st == "success"
                  then "success" else "failed",
                gatewayResponse := some gr, completedAt := some now }) := by
          simp [handleWebhook, hev, hfind, hterm, hps, upsertWalletCredit_transactions]
        unfold findTxnByReference
        rw [htr]
        exact hsettle
    · have hps2 : (event == "charge.success" && st == "success") = false :=
        Bool.not_eq_true _ |>.mp hps
      constructor
      · simp [handleWebhook, hev, hfind, hterm, hps2]
      · have htr : (handleWebhook event ref amt st gr now db).2.transactions =
            setTxnByReference db.transactions ref
              (fun t => { t with
                status := if event == "charge.success" && st == "success"
                  then "success" else "failed",
                gatewayResponse := some gr, completedAt := some now }) := by
          simp [handleWebhook, hev, hfind, hterm, hps2]
        unfold findTxnByReference
        rw [htr]
        exact hsettle

theorem c1_witness :
    (("success" : String) = "success" ∨ ("success" : String) = "failed") ∧
    handleWebhook "charge.success" "dep_1_u1" 700 "success" "ok" 9
        ⟨[⟨"u1", "W1", 7⟩],
         [{ userId := "u1", reference := "dep_1_u1", amount := 7, type := "deposit",
            status := "success", paystackReference := none, gatewayResponse := none,
            metadata := [], completedAt := none }]⟩ =
      (.ok ⟨true, some "Already processed"⟩,
       ⟨[⟨"u1", "W1", 7⟩],
        [{ userId := "u1", reference := "dep_1_u1", amount := 7, type := "deposit",
           status := "success", paystackReference := none, gatewayResponse := none,
           metadata := [], completedAt := none }]⟩) :=
  ⟨Or.inl rfl,
   (c1_terminal_transitions "charge.success" "dep_1_u1" "success" "ok" "x" 700 0 none 9
      ⟨[⟨"u1", "W1", 7⟩],
       [{ userId := "u1", reference := "dep_1_u1", amount := 7, type := "deposit",
          status := "success", paystackReference := none, gatewayResponse := none,
          metadata := [], completedAt := none }]⟩
      { userId := "u1", reference := "dep_1_u1", amount := 7, type := "deposit",
        status := "success", paystackReference := none, gatewayResponse := none,
        metadata := [], completedAt := none }
      (by decide) (by decide)).1 (Or.inl rfl)⟩

/-- C6 counterexample: a webhook credit of 150 kobo leaves the stored
balance at the fractional major-unit value 3/2, whose denominator is not 1,
so stored money is not an integer count of minor units and the balance
arithmetic runs on fractional major-unit values. -/
theorem c6_counterexample :
    (findWalletByUserId (handleWebhook "charge.success" "dep_1_u1" 150 "success" "ok" 3
        ⟨[⟨"u1", "W1", 0⟩],
         [{ userId := "u1", reference := "dep_1_u1", amount := 3/2, type := "deposit",
            status := "pending", paystackReference := none, gatewayResponse := none,
            metadata := [], completedAt := none }]⟩).2 "u1").map Wallet.balance =
      some (3/2) ∧
    ((3 : ℚ) / 2).den ≠ 1 := by decide

/-- C6 amended: money crosses the gateway boundary in minor units, with
minor = major * 100 sent on deposit initiation (no rounding step) and
major = minor / 100 applied to gateway amounts before crediting; balances
and transaction amounts are stored and compared in major units: the webhook
credit adds minor / 100 to the stored major-unit balance, and the pending
deposit row stores the major-unit amount. -/
theorem c6_money_units
    (ref gr u2 ac gref aurl : String) (amt a : ℚ) (now : Nat) (db : DB)
    (txn : Txn) (W W2 : Wallet) (cand : Nat → String) (gwInit : ℚ → GatewayInit)
    (hfind : findTxnByReference db ref = some txn)
    (hpend : txn.status = "pending")
    (hW : findWalletByUserId db txn.userId = some W)
    (hW2 : findWalletByUserId db u2 = some W2)
    (hok : gwInit (amountInKobo a) = .ok ac gref aurl) :
    (∀ x : ℚ, amountInKobo x = x * 100) ∧
    (∀ x : ℚ, koboToNaira x = x / 100) ∧
    (findWalletByUserId
        (handleWebhook "charge.success" ref amt "success" gr now db).2
        txn.userId).map Wallet.balance = some (W.balance + koboToNaira amt) ∧
    (initiateDeposit gwInit cand now u2 a db).2.transactions =
      db.transactions ++
        [{ userId := u2, reference := depositReference now u2, amount := a,
           type := "deposit", status := "pending", paystackReference := some ac,
           gatewayResponse := none, metadata := [], completedAt := none }] := by
  refine ⟨fun x => rfl, fun x => rfl, ?_, ?_⟩
  · have hev : strStartsWith "charge.success" "charge." = true := by decide
    have hterm : (txn.status == "success" || txn.status == "failed") = false := by
      rw [hpend]
      decide
    have hps : (("charge.success" : String) == "charge.success" &&
        ("success" : String) == "success") = true := by decide
    have hWu := List.find?_some hW
    simp only [handleWebhook, hev, hfind, hterm, hps, if_true, ite_true,
      Bool.false_eq_true, if_false, upsertWalletCredit]
    simp only [findWalletByUserId] at hW ⊢
    rw [hW]
    rw [findWalletByUserId_setBalanceByUserId, hW]
    simp [beq_iff_eq.mp hWu]
  · simp [initiateDeposit, getOrCreateWallet, hW2, hok]

theorem c6_witness :
    ((("pending" : String) = "pending") ∧
      (findWalletByUserId (handleWebhook "charge.success" "dep_9_u1" 150 "success" "ok" 4
          ⟨[⟨"u1", "W1", 20⟩],
           [{ userId := "u1", reference := "dep_9_u1", amount := 3/2, type := "deposit",
              status := "pending", paystackReference := none, gatewayResponse := none,
              metadata := [], completedAt := none }]⟩).2 "u1").map Wallet.balance =
        some ((20 : ℚ) + koboToNaira 150)) :=
  ⟨rfl,
   (c6_money_units "dep_9_u1" "ok" "u1" "ac" "gr" "au" 150 5 4
      ⟨[⟨"u1", "W1", 20⟩],
       [{ userId := "u1", reference := "dep_9_u1", amount := 3/2, type := "deposit",
          status := "pending", paystackReference := none, gatewayResponse := none,
          metadata := [], completedAt := none }]⟩
      { userId := "u1", reference := "dep_9_u1", amount := 3/2, type := "deposit",
        status := "pending", paystackReference := none, gatewayResponse := none,
        metadata := [], completedAt := none }
      ⟨"u1", "W1", 20⟩ ⟨"u1", "W1", 20⟩ (fun _ => "999999999999")
      (fun _ => .ok "ac" "gr" "au")
      (by decide) (by decide) (by decide) (by decide) (by decide)).2.2.1⟩

/-- C7 counterexample: a deposit initiation for a user without a wallet,
whose gateway call fails, still persists the wallet created by
getOrCreateWallet before the gateway call, so the call does not write
nothing. -/
theorem c7_counterexample :
    initiateDeposit (fun _ => .fail) (fun _ => "123456789012") 7 "u1" 50 ⟨[], []⟩ =
      (.error (.badRequest "Failed to initialize payment"),
       ⟨[⟨"u1", "123456789012", 0⟩], []⟩) ∧
    (⟨[⟨"u1", "123456789012", 0⟩], []⟩ : DB) ≠ ⟨[], []⟩ := by decide

/-- C7 amended: initiateDeposit calls the gateway before persisting any
Transaction row.  When the gateway call fails the call propagates the
payment initiation failure and writes no Transaction row (for a user whose
wallet already exists, the state is exactly unchanged); the pending row,
carrying the gateway access code, is written only when the gateway call
succeeds. -/
theorem c7_initiate_order
    (gwInit : ℚ → GatewayInit) (cand : Nat → String) (now : Nat)
    (u : String) (a : ℚ) (db : DB) (W : Wallet)
    (hW : findWalletByUserId db u = some W) :
    (gwInit (amountInKobo a) = .fail →
      initiateDeposit gwInit cand now u a db =
        (.error (.badRequest "Failed to initialize payment"), db)) ∧
    (∀ ac gref aurl, gwInit (amountInKobo a) = .ok ac gref aurl →
      initiateDeposit gwInit cand now u a db =
        (.ok ⟨gref, aurl⟩,
         { db with transactions := db.transactions ++
            [{ userId := u, reference := depositReference now u, amount := a,
               type := "deposit", status := "pending", paystackReference := some ac,
               gatewayResponse := none, metadata := [], completedAt := none }] })) := by
  constructor
  · intro hfail
    simp [initiateDeposit, getOrCreateWallet, hW, hfail]
  · intro ac gref aurl hok
    simp [initiateDeposit, getOrCreateWallet, hW, hok]

theorem c7_witness :
    ((fun _ : ℚ => GatewayInit.fail) (amountInKobo 50) = .fail) ∧
    initiateDeposit (fun _ => .fail) (fun _ => "123456789012") 7 "u1" 50
        ⟨[⟨"u1", "W1", 3⟩], []⟩ =
      (.error (.badRequest "Failed to initialize payment"), ⟨[⟨"u1", "W1", 3⟩], []⟩) :=
  ⟨rfl,
   (c7_initiate_order (fun _ => .fail) (fun _ => "123456789012") 7 "u1" 50
      ⟨[⟨"u1", "W1", 3⟩], []⟩ ⟨"u1", "W1", 3⟩ (by decide)).1 rfl⟩

/-- C8: the webhook endpoint accepts a delivery exactly when the supplied
signature equals the keyed hash of the raw body under the shared secret:
a missing header and a mismatching signature are both rejected before any
processing with the state unchanged, and a matching signature reaches
handleWebhook on the parsed payload. -/
theorem c8_signature_verification
    (hmac : String → String → String) (secret rawBody s : String)
    (parse : String → Option WebhookPayload) (now : Nat) (db : DB) :
    (verifyPaystackSignature hmac secret rawBody s = true ↔ s = hmac secret rawBody) ∧
    (paystackWebhook hmac secret none rawBody parse now db =
      (.error (.badRequest "No signature header"), db)) ∧
    (s ≠ hmac secret rawBody →
      paystackWebhook hmac secret (some s) rawBody parse now db =
        (.error (.badRequest "Invalid signature"), db)) ∧
    (paystackWebhook hmac secret (some (hmac secret rawBody)) rawBody parse now db =
      match parse rawBody with
      | none => (.error (.badRequest "Invalid webhook payload"), db)
      | some p => handleWebhook p.event p.reference p.amount p.status
          p.gateway_response now db) := by
  refine ⟨?_, rfl, ?_, ?_⟩
  · unfold verifyPaystackSignature
    rw [beq_iff_eq]
    exact eq_comm
  · intro hne
    have hv : verifyPaystackSignature hmac secret rawBody s = false := by
      unfold verifyPaystackSignature
      exact beq_eq_false_iff_ne.mpr (fun e => hne e.symm)
    simp [paystackWebhook, hv]
  · have hv : verifyPaystackSignature hmac secret rawBody (hmac secret rawBody) = true := by
      unfold verifyPaystackSignature
      exact beq_self_eq_true _
    simp only [paystackWebhook, hv, if_true]

theorem c8_witness :
    (("bad" : String) ≠ (fun k b => k ++ b) "sec" "body") ∧
    paystackWebhook (fun k b => k ++ b) "sec" (some "bad") "body"
        (fun _ => none) 3 ⟨[], []⟩ =
      (.error (.badRequest "Invalid signature"), ⟨[], []⟩) :=
  ⟨by decide,
   (c8_signature_verification (fun k b => k ++ b) "sec" "body" "bad"
      (fun _ => none) 3 ⟨[], []⟩).2.2.1 (by decide)⟩

/-! Nonnegativity preservation helpers. -/

theorem upsertWalletCredit_nonneg (db : DB) (uid : String) (amt : ℚ)
    (hdb : NonNegDB db) (h : 0 ≤ amt) : NonNegDB (upsertWalletCredit db uid amt) := by
  unfold upsertWalletCredit
  cases hf : findWalletByUserId db uid with
  | some w =>
    intro w2 hw2
    simp only [setBalanceByUserId, List.mem_map] at hw2
    obtain ⟨w0, hw0, rfl⟩ := hw2
    by_cases hu : (w0.userId == uid) = true
    · simp only [hu, if_true, ite_true]
      exact add_nonneg (hdb w0 hw0) h
    · simp only [Bool.not_eq_true] at hu
      simp only [hu, Bool.false_eq_true, if_false, ite_false]
      exact hdb w0 hw0
  | none =>
    intro w2 hw2
    simp only [List.mem_append, List.mem_singleton] at hw2
    rcases hw2 with h2 | h2
    · exact hdb w2 h2
    · rw [h2]
      exact h

theorem getOrCreateWallet_nonneg (cand : Nat → String) (u : String) (db : DB)
    (hdb : NonNegDB db) : NonNegDB (getOrCreateWallet cand u db).2 := by
  unfold getOrCreateWallet
  cases hf : findWalletByUserId db u with
  | some w => simpa using hdb
  | none =>
    cases hi : (List.range 5).find? (fun i => (findWalletByNumber db (cand i)).isNone) with
    | none => simpa using hdb
    | some i =>
      intro w hw
      simp only [List.mem_append, List.mem_singleton] at hw
      rcases hw with h | h
      · exact hdb w h
      · rw [h]

theorem handleWebhook_nonneg (event ref : String) (amt : ℚ) (st gr : String)
    (now : Nat) (db : DB) (hdb : NonNegDB db) (hamt : 0 ≤ amt) :
    NonNegDB (handleWebhook event ref amt st gr now db).2 := by
  by_cases hev : strStartsWith event "charge." = true
  · cases hfind : findTxnByReference db ref with
    | none => simpa [handleWebhook, hev, hfind] using hdb
    | some txn =>
      by_cases hterm : (txn.status == "success" || txn.status == "failed") = true
      · simpa [handleWebhook, hev, hfind, hterm] using hdb
      · have hterm2 : (txn.status == "success" || txn.status == "failed") = false :=
          Bool.not_eq_true _ |>.mp hterm
        by_cases hps : (event == "charge.success" && st == "success") = true
        · simp only [handleWebhook, hev, hfind, hterm2, hps, if_true, ite_true,
            Bool.false_eq_true, if_false, ite_false]
          exact upsertWalletCredit_nonneg _ _ _ hdb (div_nonneg hamt (by norm_num))
        · have hps2 : (event == "charge.success" && st == "success") = false :=
            Bool.not_eq_true _ |>.mp hps
          simpa [handleWebhook, hev, hfind, hterm2, hps2] using hdb
  · have hev2 : strStartsWith event "charge." = false := Bool.not_eq_true _ |>.mp hev
    simpa [handleWebhook, hev2] using hdb

theorem verify_nonneg (ref : String) (gw : GatewayVerifyResult) (now : Nat) (db : DB)
    (hdb : NonNegDB db) (hgw : gw.amountNonneg) :
    NonNegDB (verifyDepositWithPaystack ref gw now db).2 := by
  cases hfind : findTxnByReference db ref with
  | none => simpa [verifyDepositWithPaystack, hfind] using hdb
  | some txn =>
    cases gw with
    | ok pst pamt pgr =>
      by_cases hsucc : (txn.status == "success") = true
      · simpa [verifyDepositWithPaystack, hfind, hsucc] using hdb
      · have hsucc2 : (txn.status == "success") = false := Bool.not_eq_true _ |>.mp hsucc
        by_cases hps : (pst == "success") = true
        · simp only [verifyDepositWithPaystack, hfind, hsucc2, hps, if_true, ite_true,
            Bool.false_eq_true, if_false, ite_false]
          exact upsertWalletCredit_nonneg _ _ _ hdb (div_nonneg hgw (by norm_num))
        · have hps2 : (pst == "success") = false := Bool.not_eq_true _ |>.mp hps
          simpa [verifyDepositWithPaystack, hfind, hsucc2, hps2] using hdb
    | notFound => simpa [verifyDepositWithPaystack, hfind] using hdb
    | otherError => simpa [verifyDepositWithPaystack, hfind] using hdb

theorem transfer_nonneg (hash16 : String → String) (now : Nat) (u wNum : String)
    (a : ℚ) (db : DB) (hdb : NonNegDB db) (hU : UniqueUserIds db) :
    NonNegDB (transfer hash16 now u wNum a db).2 := by
  by_cases h1 : a ≤ 0
  · simpa [transfer, h1] using hdb
  cases hR : findWalletByNumber db wNum with
  | none => simpa [transfer, h1, hR] using hdb
  | some R =>
    cases hS : findWalletByUserId db u with
    | none => simpa [transfer, h1, hR, hS] using hdb
    | some S =>
      by_cases h2 : S.balance < a
      · simpa [transfer, h1, hR, hS, h2] using hdb
      cases hk : db.transactions.find? (isDupTxn (idempotencyKeyOf hash16 u wNum a)) with
      | some t => simpa [transfer, h1, hR, hS, h2, hk] using hdb
      | none =>
        by_cases h3 : (transferReference now u == transferReference now R.userId ||
            refTaken db (transferReference now u) ||
            refTaken db (transferReference now R.userId)) = true
        · simpa [transfer, h1, hR, hS, h2, hk, h3] using hdb
        · have h3f : (transferReference now u == transferReference now R.userId ||
              refTaken db (transferReference now u) ||
              refTaken db (transferReference now R.userId)) = false :=
            Bool.not_eq_true _ |>.mp h3
          have hbal : a ≤ S.balance := not_lt.mp h2
          have hapos : 0 ≤ a := le_of_lt (not_le.mp h1)
          simp only [transfer, h1, hR, hS, h2, hk, h3f, if_true, ite_true, if_false,
            ite_false, Bool.false_eq_true]
          intro w hw
          simp only [setBalanceByNumber, setBalanceByUserId, List.mem_map] at hw
          obtain ⟨w1, ⟨w0, hw0, rfl⟩, rfl⟩ := hw
          by_cases hu : (w0.userId == u) = true
          · have he : w0 = S := eq_of_userId_match hU hS hw0 hu
            have hb0 : 0 ≤ w0.balance - a := by
              rw [he]
              exact sub_nonneg.mpr hbal
            by_cases hn : (({ w0 with balance := w0.balance - a } : Wallet).walletNumber
                == wNum) = true
            · simp only [hu, if_true, ite_true, hn]
              exact add_nonneg hb0 hapos
            · simp only [Bool.not_eq_true] at hn
              simp only [hu, if_true, ite_true, hn, Bool.false_eq_true, if_false, ite_false]
              exact hb0
          · simp only [Bool.not_eq_true] at hu
            have hb0 : 0 ≤ w0.balance := hdb w0 hw0
            simp only [hu, Bool.false_eq_true, if_false, ite_false]
            by_cases hn : (w0.walletNumber == wNum) = true
            · simp only [hn, if_true, ite_true]
              exact add_nonneg hb0 hapos
            · simp only [Bool.not_eq_true] at hn
              simp only [hn, Bool.false_eq_true, if_false, ite_false]
              exact hb0

/-- C2: starting from a state with all balances nonnegative (and the unique
userId index of the schema), every balance-mutating operation, transfer,
handleWebhook, verifyDepositWithPaystack and getOrCreateWallet, preserves
nonnegativity of every stored balance, the gateway amounts being the
nonnegative charge amounts; and the insufficiency check guards the debit:
a transfer whose sender balance is below the amount leaves the state
exactly unchanged. -/
theorem c2_balance_nonneg
    (hash16 : String → String) (now : Nat) (u wNum event ref st gr vref : String)
    (a wamt : ℚ) (gw : GatewayVerifyResult) (cand : Nat → String) (db : DB)
    (hdb : NonNegDB db) (hU : UniqueUserIds db)
    (hamt : 0 ≤ wamt) (hgw : gw.amountNonneg) :
    NonNegDB (transfer hash16 now u wNum a db).2 ∧
    NonNegDB (handleWebhook event ref wamt st gr now db).2 ∧
    NonNegDB (verifyDepositWithPaystack vref gw now db).2 ∧
    NonNegDB (getOrCreateWallet cand u db).2 ∧
    (∀ S, findWalletByUserId db u = some S → S.balance < a →
      (transfer hash16 now u wNum a db).2 = db) :=
  ⟨transfer_nonneg hash16 now u wNum a db hdb hU,
   handleWebhook_nonneg event ref wamt st gr now db hdb hamt,
   verify_nonneg vref gw now db hdb hgw,
   getOrCreateWallet_nonneg cand u db hdb,
   fun S hS hlt => transfer_unchanged_of_low_balance hash16 now u wNum a db S hS hlt⟩

theorem c2_witness :
    NonNegDB (⟨[⟨"u1", "W1", 100⟩, ⟨"u2", "W2", 0⟩], []⟩ : DB) ∧
    NonNegDB (transfer (fun s => s) 1 "u1" "W2" 40
      ⟨[⟨"u1", "W1", 100⟩, ⟨"u2", "W2", 0⟩], []⟩).2 :=
  ⟨by decide,
   (c2_balance_nonneg (fun s => s) 1 "u1" "W2" "charge.success" "r" "success" "ok" "r"
      40 20 (.ok "success" 20 none) (fun _ => "999999999999")
      ⟨[⟨"u1", "W1", 100⟩, ⟨"u2", "W2", 0⟩], []⟩
      (by decide) (by decide) (by decide) (show (0 : ℚ) ≤ 20 by decide)).1⟩
